import Mathlib

/-!
Verification development for the Properati web-scraper repository
(`src/models/properati_scraper`).  The Python modules `config.py`,
`utils/helpers.py`, `utils/file_handlers.py`, `scrapers/base_scraper.py`,
`scrapers/detail_scraper.py`, `scrapers/listing_scraper.py`,
`scrapers/project_scraper.py` and `main.py` are shallowly embedded below.

The document-query surface (BeautifulSoup) is an external collaborator:
a parsed page is modelled as a `Soup` structure whose fields hold the
results of exactly the CSS-selector / text queries the scraper code
performs.  Everything else (control flow, fallback tiers, keyword lists,
record construction, checkpointed persistence, the run loop) is translated
from the Python source line by line.
-/

namespace Properati

/-! ### String helpers (models of the Python string operations used) -/

/-- Model of Python `needle in hay` (substring containment). -/
def inStr (needle hay : String) : Bool :=
  hay.data.tails.any (fun t => needle.data.isPrefixOf t)

/-- Model of Python `str.startswith` (used for the URL shapes of
`urljoin`). -/
def strIsPrefixOf (p s : String) : Bool :=
  p.data.isPrefixOf s.data

/-- Model of Python `str.lower()` (ASCII case folding; the scraper's
keywords and indicator strings contain no cased non-ASCII letters). -/
def lowerStr (s : String) : String :=
  ⟨s.data.map Char.toLower⟩

/-- Model of `re.findall(r'\d+', text)[0]`: the first maximal run of
digits in `text`, if any. -/
def firstDigitRunAux : List Char → Option (List Char)
  | [] => none
  | c :: rest =>
    if c.isDigit then some (c :: rest.takeWhile Char.isDigit)
    else firstDigitRunAux rest

def firstDigitRun (s : String) : Option String :=
  (firstDigitRunAux s.data).map (fun cs => ⟨cs⟩)

/-- First element of a list of texts containing a digit run, mapped to
that digit run (models a `for element in elements: ... return numbers[0]`
loop). -/
def findFirstDigit (texts : List String) : Option String :=
  texts.findSome? firstDigitRun

/-- Model of `re.sub(r'\s+', ' ', text)`: collapse every run of
whitespace to a single space.  The boolean tracks whether the previous
character was part of a whitespace run. -/
def collapseWsAux : List Char → Bool → List Char
  | [], _ => []
  | c :: rest, prev =>
    if c.isWhitespace then
      if prev then collapseWsAux rest true
      else ' ' :: collapseWsAux rest true
    else c :: collapseWsAux rest false

def collapseWs (s : String) : String :=
  ⟨collapseWsAux s.data false⟩

/-- Model of Python `text[:n]` (character slice). -/
def strTake (s : String) (n : Nat) : String :=
  ⟨s.data.take n⟩

/-- Python truthiness for a string together with the scraper's repeated
`text and text not in ['', '-']` guard. -/
def usableText (t : String) : Bool :=
  !(t = "") && !(t = "-")

/-! ### `config.py` -/

def BASE_URL : String := "https://www.properati.com.co"

def BACKUP_INTERVAL : Nat := 12

def DEFAULT_MAX_PAGES : Nat := 3

def LINK_SELECTORS : List String :=
  ["a[href*='/detalle/']", "a[href*='/proyecto/']", "article.snippet a",
   ".listing-card a", "[data-url]"]

def TITLE_SELECTORS : List String :=
  [".main-title h1", "h1.title", "[data-test='listing-title']", "h1"]

def PRICE_SELECTORS : List String :=
  ["[data-test='listing-price']", ".prices-and-fees__price", ".price",
   ".listing-price", ".value"]

def LOCATION_SELECTORS : List String :=
  [".location", "[data-test='location']", ".property-location", ".address"]

def BEDROOM_KEYWORDS : List String :=
  ["habitacion", "habitaciones", "dormitorio", "dormitorios", "room", "bedroom"]

def BATHROOM_KEYWORDS : List String :=
  ["baño", "baños", "bath", "bathroom"]

def GARAGE_KEYWORDS : List String :=
  ["garaje", "estacionamiento", "parqueadero", "parking", "garage"]

def LOT_KEYWORDS : List String :=
  ["lote", "terreno", "finca", "parcela", "solar"]

def CAPTCHA_INDICATORS : List String :=
  ["Security verification", "math problem", "To continue, please complete",
   "captcha", "challenge"]

/-! ### Property records

A scraped record is a Python `dict` mapping field names to values that
are either `None`, a string, or (only `Features_Count`) an `int`.
Insertion order is kept, as Python dicts do. -/

inductive Val where
  | vnull : Val
  | vstr : String → Val
  | vint : Nat → Val
  deriving DecidableEq, Repr

open Val

def PRecord : Type := List (String × Val)

instance : DecidableEq PRecord := inferInstanceAs (DecidableEq (List (String × Val)))

instance : Membership (String × Val) PRecord := inferInstanceAs (Membership _ (List (String × Val)))

instance : Append PRecord := inferInstanceAs (Append (List (String × Val)))

/-- Field lookup: `none` when the key is absent. -/
def rget : PRecord → String → Option Val
  | [], _ => none
  | (k', v) :: rest, k => if k' = k then some v else rget rest k

/-- Model of Python `d.get(k)`: `None` both for an absent key and for a
key stored with value `None`. -/
def pyGet (r : PRecord) (k : String) : Val :=
  (rget r k).getD vnull

/-- Model of Python `d.get(k, default)`. -/
def pyGetD (r : PRecord) (k : String) (default : Val) : Val :=
  (rget r k).getD default

/-- Model of Python `d[k] = v`: update in place, or append a new key. -/
def rset : PRecord → String → Val → PRecord
  | [], k, v => [(k, v)]
  | (k', v') :: rest, k, v =>
    if k' = k then (k', v) :: rest else (k', v') :: rset rest k v

/-- Key presence (distinguishes an absent key from a `None` value). -/
def hasField (r : PRecord) (k : String) : Bool :=
  (rget r k).isSome

/-- Python truthiness of a field value. -/
def truthy : Val → Bool
  | vnull => false
  | vstr s => !(s = "")
  | vint n => !(n = 0)

/-! ### The document-query surface (external collaborator)

`Soup` models one parsed page.  Each field holds the result of one of
the query shapes the scraper performs; texts are as returned by
`get_text(strip=True)` unless stated otherwise. -/

structure Soup where
  /-- `soup.select_one(sel)`: text of the first match, `none` if no match. -/
  selectOneText : String → Option String
  /-- `soup.select(sel)`: texts of all matches, in document order. -/
  selectTexts : String → List String
  /-- `soup.select(sel)` on link-bearing elements: each match's
  `get('href')` (`none` models Python `None`). -/
  selectHrefs : String → List (Option String)
  /-- `soup.select(sel)` on listing-link elements: each match's
  `element.get('href') or element.get('data-url')`. -/
  selectLinkAttrs : String → List (Option String)
  /-- `soup.find_all(class_=re.compile(pattern))`: texts of all elements
  whose CSS class matches the regex `pattern`. -/
  findAllClassRe : String → List String
  /-- `soup.find_all(string=re.compile(keyword, re.IGNORECASE))`: texts of
  all text nodes containing `keyword` case-insensitively. -/
  findAllStringIC : String → List String
  /-- The garage-icon walk of `DetailScraper._extract_garage_specific`
  tier 2: for each element matched by the icon selector list, the text of
  `icon.find_parent('div', class_='details-item')
      .select_one('.details-item-value')`, `none` when the parent or the
  value element is missing. -/
  garageIconValueTexts : List (Option String)
  /-- The scoped second pass of `ProjectScraper.extract_unit_links`: the
  `href` of each `a[href*='/detalle/']` inside the
  `.units-section, .available-units, .project-units` sections, in order. -/
  unitSectionHrefs : List (Option String)
  /-- `str(element)` of each match of
  `.pagination .next:not(.disabled), .pagination .next[disabled]`. -/
  nextButtonsHtml : List String
  /-- `soup.get_text()` of the whole page (no stripping). -/
  pageText : String

/-- A page with no matching elements and empty text. -/
def emptySoup : Soup where
  selectOneText := fun _ => none
  selectTexts := fun _ => []
  selectHrefs := fun _ => []
  selectLinkAttrs := fun _ => []
  findAllClassRe := fun _ => []
  findAllStringIC := fun _ => []
  garageIconValueTexts := []
  unitSectionHrefs := []
  nextButtonsHtml := []
  pageText := ""

/-! ### `utils/helpers.py` -/

/-- `safe_extract(soup, selectors, default="N/A")`. -/
def safe_extract (soup : Soup) (selectors : List String)
    (default : String := "N/A") : String :=
  match selectors with
  | [] => default
  | sel :: rest =>
    match soup.selectOneText sel with
    | none => safe_extract soup rest default
    | some t => if usableText t then t else safe_extract soup rest default

/-- `extract_numeric_value(soup, data_test_attribute, context_keywords,
default="N/A")`: three-tier numeric extraction. -/
def extract_numeric_value (soup : Soup) (data_test_attribute : String)
    (context_keywords : List String) (default : String := "N/A") : String :=
  match findFirstDigit
      (soup.selectTexts ("[data-test=\x22" ++ data_test_attribute ++ "\x22]")) with
  | some n => n
  | none =>
    match (soup.findAllClassRe "details-item-value|value").findSome?
        (fun e =>
          let t := lowerStr e
          if context_keywords.any (fun kw => inStr kw t) then firstDigitRun t
          else none) with
    | some n => n
    | none =>
      match context_keywords.findSome?
          (fun kw => (soup.findAllStringIC kw).findSome?
            (fun e => firstDigitRun (lowerStr e))) with
      | some n => n
      | none => default

/-- `extract_business_type(url, soup)`. -/
def extract_business_type (url : String) (soup : Soup) : String :=
  let operation_type := safe_extract soup
    ["[data-test='operation-type-value']", ".operation-type .place-features__values"]
  if inStr "Venta" operation_type then "Venta"
  else if inStr "Arriendo" operation_type || inStr "Renta" operation_type then
    "Arriendo"
  else
    let u := lowerStr url
    if inStr "/venta/" u || inStr "venta" u then "Venta"
    else if inStr "/arriendo/" u || inStr "arriendo" u || inStr "renta" u then
      "Arriendo"
    else
      let page_text := lowerStr soup.pageText
      if inStr "venta" page_text && !(inStr "arriendo" page_text) then "Venta"
      else if inStr "arriendo" page_text || inStr "renta" page_text then "Arriendo"
      else "N/A"

/-- `detect_captcha(html)`: the rendered page's text, lowered, contains a
blocked-page indicator. -/
def detect_captcha (soup : Soup) : Bool :=
  let page_text := lowerStr soup.pageText
  CAPTCHA_INDICATORS.any (fun indicator => inStr (lowerStr indicator) page_text)

/-! ### `scrapers/base_scraper.py` -/

/-- Outcome of driving the browser to a URL (`driver.get` +
`wait_for_page_load` + `page_source`): a navigation error, a readiness
timeout, or a rendered page. -/
inductive FetchRes where
  | navErr : FetchRes
  | timeout : FetchRes
  | page : Soup → FetchRes

/-- The scraper's external world: what the browser returns for each URL,
the clock, and whether parsing a given page raises (the per-URL
`except Exception` paths). -/
structure ScrapeEnv where
  fetch : String → FetchRes
  now : String
  parseFault : String → Bool
  faultMsg : String → String
  projectFault : String → Bool

/-- `SeleniumBaseScraper.scrape_with_captcha_protection(url)`: `none` on a
navigation error, on a readiness timeout, and on a detected CAPTCHA;
otherwise the rendered page. -/
def scrape_with_captcha_protection (fetch : String → FetchRes) (url : String) :
    Option Soup :=
  match fetch url with
  | FetchRes.navErr => none
  | FetchRes.timeout => none
  | FetchRes.page soup => if detect_captcha soup then none else some soup

/-! ### `scrapers/detail_scraper.py` -/

/-- `DetailScraper._extract_garage_specific(soup)`: four-tier garage
count extraction. -/
def extract_garage_specific (soup : Soup) : String :=
  match findFirstDigit (soup.selectTexts "[data-test=\x22parking-lots-value\x22]") with
  | some n => n
  | none =>
    match soup.garageIconValueTexts.findSome? (fun t? => t?.bind firstDigitRun) with
    | some n => n
    | none =>
      let garage_keywords := ["garaje", "estacionamiento", "parqueadero", "parking"]
      let area_keywords := ["m²", "m2", "metro", "área", "area"]
      match (soup.findAllClassRe "details-item-value|value|facilities__item").findSome?
          (fun e =>
            let t := lowerStr e
            if garage_keywords.any (fun kw => inStr kw t) &&
               !(area_keywords.any (fun kw => inStr kw t)) then
              firstDigitRun t
            else none) with
      | some n => n
      | none =>
        if (soup.selectTexts ".facilities__item").any
            (fun item =>
              garage_keywords.any (fun kw => inStr kw (lowerStr item))) then
          "1"
        else "N/A"

/-- `DetailScraper._extract_description(soup)`: first matching selector,
whitespace-collapsed, capped at 5000 characters. -/
def extract_description (soup : Soup) : String :=
  let rec go : List String → String
    | [] => "N/A"
    | sel :: rest =>
      match soup.selectOneText sel with
      | none => go rest
      | some t =>
        if usableText t then
          let t := collapseWs t
          if t.length > 5000 then strTake t 5000 else t
        else go rest
  go [".description .content", "#description-text", ".property-description",
      "[data-test='description']"]

/-- `DetailScraper._extract_features(soup)`: facility spans (no
de-duplication) followed by the feature-list sections (de-duplicated
against everything collected so far); empty normalizes to `["N/A"]`. -/
def extract_features (soup : Soup) : List String :=
  let features := (soup.selectTexts ".facilities__item span").foldl
    (fun acc t => if usableText t then acc ++ [t] else acc) []
  let features :=
    (soup.selectTexts ".features-list li, .amenities li, .characteristics li").foldl
      (fun acc t => if usableText t && !(acc.contains t) then acc ++ [t] else acc)
      features
  if features.isEmpty then ["N/A"] else features

/-- `DetailScraper._extract_half_bathrooms(soup)`: first selector whose
elements carry a digit run. -/
def extract_half_bathrooms (soup : Soup) : String :=
  (["[data-test=\x22half-bathrooms-value\x22]",
    ".details-item__icon-halfBathroom + .details-item-value",
    ".details-item-value:contains(\x22Medio baño\x22)",
    ".details-item-value:contains(\x22medio baño\x22)"].findSome?
      (fun sel => findFirstDigit (soup.selectTexts sel))).getD "N/A"

/-- `DetailScraper._extract_floor_level(soup)`. -/
def extract_floor_level (soup : Soup) : String :=
  safe_extract soup
    ["[data-test='floor-value']", ".floor .place-features__values",
     "[class*='floor'] .value"]

def propertyTypeDetectSelectors : List String :=
  ["[data-test='property-type-value']", ".property-type .place-features__values",
   ".property-type"]

/-- The lot-or-land classification of `_parse_detalle_html` /
`scrape_unit_property`: the lowered extracted property-type text contains
a `LOT_KEYWORDS` entry. -/
def is_lot_or_land (soup : Soup) : Bool :=
  let property_type := lowerStr (safe_extract soup propertyTypeDetectSelectors)
  LOT_KEYWORDS.any (fun word => inStr word property_type)

/-- `DetailScraper._parse_detalle_html(html, url)` (`now` models
`datetime.now().strftime(...)`). -/
def parse_detalle_html (soup : Soup) (url : String) (now : String) : PRecord :=
  let islot := is_lot_or_land soup
  let features := extract_features soup
  let description := extract_description soup
  [("URL", vstr url),
   ("Title", vstr (safe_extract soup TITLE_SELECTORS)),
   ("Neighborhood", vstr (safe_extract soup LOCATION_SELECTORS)),
   ("Price", vstr (safe_extract soup PRICE_SELECTORS)),
   ("Built Area", vstr (safe_extract soup
      ["[data-test='floor-area-value']", ".floor-area .place-features__values",
       ".built-area", "[class*='area']"])),
   ("Land Area", vstr (safe_extract soup
      ["[data-test='plot-area-value']", "[data-test='area-value']",
       ".plot-area .place-features__values", ".land-area", ".area-land"])),
   ("Bedrooms", vstr (if islot then "N/A"
      else extract_numeric_value soup "bedrooms-value" BEDROOM_KEYWORDS)),
   ("Bathrooms", vstr (if islot then "N/A"
      else extract_numeric_value soup "full-bathrooms-value" BATHROOM_KEYWORDS)),
   ("Half Bathrooms", vstr (if islot then "N/A" else extract_half_bathrooms soup)),
   ("Garage", vstr (extract_garage_specific soup)),
   ("Stratum", vstr (safe_extract soup
      ["[data-test='stratum-value']", ".stratum .place-features__values",
       ".stratum", "[class*='stratum']"])),
   ("Year Built", vstr (safe_extract soup
      ["[data-test='construction-year-value']", ".year .place-features__values",
       ".year-built", ".construction-year", "[class*='year']"])),
   ("Floor Level", vstr (extract_floor_level soup)),
   ("Administration Fee", vstr (safe_extract soup
      ["[data-test='community-price']", ".administration", ".admin-fee",
       "[class*='admin']"])),
   ("Property Type", vstr (safe_extract soup
      ["[data-test='property-type-value']", ".property-type .place-features__values",
       ".property-type", "[class*='type']"])),
   ("Business Type", vstr (extract_business_type url soup)),
   ("Status", vstr "N/A"),
   ("Extraction Date", vstr now),
   ("Error", vnull),
   ("Property_Category", vstr (if islot then "Lote/Terreno" else "Construcción")),
   ("Description", vstr description),
   ("Features", vstr (if features = ["N/A"] then "N/A"
      else String.intercalate ", " features)),
   ("Features_Count", if features = ["N/A"] then vstr "0" else vint features.length)]

/-- `DetailScraper._parse_proyecto_html(html, url)`. -/
def parse_proyecto_html (soup : Soup) (url : String) (now : String) : PRecord :=
  let features := extract_features soup
  let description := extract_description soup
  [("URL", vstr url),
   ("Title", vstr (safe_extract soup
      ["h1.header__text", "h1.title", ".project-title", "h1"])),
   ("Neighborhood", vstr (safe_extract soup
      [".header__location span", ".location", ".project-location", ".address"])),
   ("Price", vstr (safe_extract soup
      [".price-info__value", ".price", ".project-price", ".value"])),
   ("Built Area", vstr "N/A"),
   ("Land Area", vstr "N/A"),
   ("Bedrooms", vstr "N/A"),
   ("Bathrooms", vstr "N/A"),
   ("Half Bathrooms", vstr "N/A"),
   ("Garage", vstr "N/A"),
   ("Stratum", vstr "N/A"),
   ("Year Built", vstr "N/A"),
   ("Floor Level", vstr "N/A"),
   ("Administration Fee", vstr "N/A"),
   ("Property Type", vstr "Proyecto"),
   ("Business Type", vstr (extract_business_type url soup)),
   ("Status", vstr "N/A"),
   ("Extraction Date", vstr now),
   ("Error", vnull),
   ("Is_Project", vstr "Sí"),
   ("Description", vstr description),
   ("Features", vstr (if features = ["N/A"] then "N/A"
      else String.intercalate ", " features)),
   ("Features_Count", if features = ["N/A"] then vstr "0" else vint features.length)]

/-- The minimal record each entry point returns when the protected fetch
yields `None`. -/
def captchaRecord (url now : String) : PRecord :=
  [("URL", vstr url), ("Error", vstr "CAPTCHA detected"),
   ("Extraction Date", vstr now)]

/-- `DetailScraper.scrape_property(url)`: protected fetch, dispatch on
the URL's path marker; a fault raised while parsing is caught by the
method's `except Exception` and converted into a `scraping_error` record. -/
def scrape_property (env : ScrapeEnv) (url : String) : PRecord :=
  match scrape_with_captcha_protection env.fetch url with
  | none => captchaRecord url env.now
  | some soup =>
    if inStr "/proyecto/" url then
      if env.parseFault url then
        [("URL", vstr url),
         ("Error", vstr ("scraping_error: " ++ env.faultMsg url)),
         ("Extraction Date", vstr env.now)]
      else parse_proyecto_html soup url env.now
    else if inStr "/detalle/" url then
      if env.parseFault url then
        [("URL", vstr url),
         ("Error", vstr ("scraping_error: " ++ env.faultMsg url)),
         ("Extraction Date", vstr env.now)]
      else parse_detalle_html soup url env.now
    else [("URL", vstr url), ("Error", vstr "Unknown URL type")]

/-! ### `scrapers/project_scraper.py` -/

/-- Model of `urllib.parse.urljoin(BASE_URL, href)` for the href shapes
that occur against the absolute, path-less `BASE_URL`: an absolute URL is
kept, a protocol-relative one inherits the scheme, a root-relative or
relative path is resolved against the site root. -/
def urljoinBase (href : String) : String :=
  if strIsPrefixOf "http://" href || strIsPrefixOf "https://" href then href
  else if strIsPrefixOf "//" href then "https:" ++ href
  else if strIsPrefixOf "/" href then BASE_URL ++ href
  else BASE_URL ++ "/" ++ href

def unitLinkSelectors : List String :=
  ["a[href*='/detalle/']", ".similar-snippet a", ".unit-card a",
   ".listing-card a", "[data-test*='property-card'] a"]

/-- Order-preserving append-if-new (the `if full_url not in unit_links:
unit_links.append(full_url)` idiom). -/
def appendNew (acc : List String) (u : String) : List String :=
  if acc.contains u then acc else acc ++ [u]

/-- The first pass of `extract_unit_links`: the general selectors,
keeping only truthy hrefs containing `/detalle/`. -/
def unit_links_general (soup : Soup) : List String :=
  unitLinkSelectors.foldl
    (fun acc sel =>
      (soup.selectHrefs sel).foldl
        (fun acc href? =>
          match href? with
          | none => acc
          | some href =>
            if !(href = "") && inStr "/detalle/" href then
              appendNew acc (urljoinBase href)
            else acc)
        acc)
    []

/-- The fallback pass of `extract_unit_links`: hrefs from the
"Available Units" sections. -/
def unit_links_scoped (soup : Soup) : List String :=
  soup.unitSectionHrefs.foldl
    (fun acc href? =>
      match href? with
      | none => acc
      | some href =>
        if !(href = "") then appendNew acc (urljoinBase href) else acc)
    []

/-- `ProjectScraper.extract_unit_links(project_url)`: fetch the project
page itself, run the general selectors (keeping only hrefs containing
`/detalle/`), and only if that pass found nothing, take the hrefs from
the "available units" sections. -/
def extract_unit_links (env : ScrapeEnv) (project_url : String) : List String :=
  match scrape_with_captcha_protection env.fetch project_url with
  | none => []
  | some soup =>
    if (unit_links_general soup).isEmpty then unit_links_scoped soup
    else unit_links_general soup

/-- The `details` dictionary of `ProjectScraper._extract_project_details`. -/
structure ProjDetails where
  units : Option String := none
  bedrooms : Option String := none
  bathrooms : Option String := none
  built_area : Option String := none
  land_area : Option String := none

/-- `ProjectScraper._extract_project_details(soup)`: classify each
`.units-summary .details-item__text` element by keyword (later matches
overwrite earlier ones, as dict assignment does). -/
def extract_project_details (soup : Soup) : ProjDetails :=
  (soup.selectTexts ".units-summary .details-item__text").foldl
    (fun d text =>
      let text_lower := lowerStr text
      if inStr "unidades" text_lower then { d with units := some text }
      else if inStr "habitaciones" text_lower then { d with bedrooms := some text }
      else if inStr "baños" text_lower then { d with bathrooms := some text }
      else if inStr "área construida" text_lower then { d with built_area := some text }
      else if inStr "área total" text_lower then { d with land_area := some text }
      else d)
    {}

/-- `ProjectScraper._extract_project_info(soup, project_url)`. -/
def extract_project_info (soup : Soup) (project_url : String) (now : String) :
    PRecord :=
  let project_details := extract_project_details soup
  [("URL", vstr project_url),
   ("Title", vstr (safe_extract soup ["h1.header__text", "h1.title"])),
   ("Neighborhood", vstr (safe_extract soup [".header__location span", ".location"])),
   ("Price", vstr (safe_extract soup [".price-info__value", ".price"])),
   ("Built Area", vstr (project_details.built_area.getD "N/A")),
   ("Land Area", vstr (project_details.land_area.getD "N/A")),
   ("Bedrooms", vstr (project_details.bedrooms.getD "N/A")),
   ("Bathrooms", vstr (project_details.bathrooms.getD "N/A")),
   ("Garage", vstr "N/A"),
   ("Stratum", vstr "N/A"),
   ("Year Built", vstr "N/A"),
   ("Administration Fee", vstr "N/A"),
   ("Property Type", vstr "Proyecto"),
   ("Business Type", vstr (extract_business_type project_url soup)),
   ("Status", vstr "N/A"),
   ("Extraction Date", vstr now),
   ("Error", vnull),
   ("Project_Units", vstr (project_details.units.getD "N/A")),
   ("Is_Project", vstr "Sí"),
   ("Price_Label", vstr (safe_extract soup [".price-info__from"] "Precio")),
   ("Has_Individual_Units",
    vstr (match project_details.units with
          | some t => if t = "" then "No" else "Sí"
          | none => "No"))]

/-- `ProjectScraper.scrape_unit_property(unit_url)`. -/
def scrape_unit_property (env : ScrapeEnv) (unit_url : String) : PRecord :=
  match scrape_with_captcha_protection env.fetch unit_url with
  | none => captchaRecord unit_url env.now
  | some soup =>
    if env.parseFault unit_url then
      [("URL", vstr unit_url),
       ("Error", vstr ("unit_scraping_error: " ++ env.faultMsg unit_url)),
       ("Extraction Date", vstr env.now)]
    else
      let islot := is_lot_or_land soup
      [("URL", vstr unit_url),
       ("Title", vstr (safe_extract soup
          [".main-title h1", "h1.title", "[data-test='listing-title']", "h1"])),
       ("Neighborhood", vstr (safe_extract soup
          [".location", "[data-test='location']", ".property-location", ".address"])),
       ("Price", vstr (safe_extract soup
          ["[data-test='listing-price']", ".prices-and-fees__price", ".price",
           ".listing-price", ".value"])),
       ("Built Area", vstr (safe_extract soup
          ["[data-test='floor-area-value']", ".floor-area .place-features__values",
           ".built-area", "[class*='area']"])),
       ("Land Area", vstr (safe_extract soup
          ["[data-test='plot-area-value']", "[data-test='area-value']",
           ".plot-area .place-features__values", ".land-area", ".area-land"])),
       ("Bedrooms", vstr (if islot then "N/A"
          else extract_numeric_value soup "bedrooms-value" BEDROOM_KEYWORDS)),
       ("Bathrooms", vstr (if islot then "N/A"
          else extract_numeric_value soup "full-bathrooms-value" BATHROOM_KEYWORDS)),
       ("Garage", vstr (extract_numeric_value soup "parking-lots-value" GARAGE_KEYWORDS)),
       ("Stratum", vstr (safe_extract soup
          ["[data-test='stratum-value']", ".stratum .place-features__values",
           ".stratum", "[class*='stratum']"])),
       ("Year Built", vstr (safe_extract soup
          ["[data-test='construction-year-value']", ".year .place-features__values",
           ".year-built", ".construction-year", "[class*='year']"])),
       ("Administration Fee", vstr (safe_extract soup
          ["[data-test='community-price']", ".administration", ".admin-fee",
           "[class*='admin']"])),
       ("Property Type", vstr (safe_extract soup
          ["[data-test='property-type-value']", ".property-type .place-features__values",
           ".property-type", "[class*='type']"])),
       ("Business Type", vstr (extract_business_type unit_url soup)),
       ("Status", vstr "N/A"),
       ("Extraction Date", vstr now),
       ("Error", vnull),
       ("Property_Category", vstr (if islot then "Lote/Terreno" else "Construcción"))]
where now := env.now

/-- The tagging of a successful unit record inside
`scrape_project_with_units` (`Project_Parent`, `Project_Name`,
`Is_Project_Unit`). -/
def tag_project_unit (project_url : String) (project_info unit_result : PRecord) :
    PRecord :=
  rset (rset (rset unit_result
      "Project_Parent" (vstr project_url))
      "Project_Name" (pyGetD project_info "Title" (vstr "N/A")))
      "Is_Project_Unit" (vstr "Sí")

/-- `ProjectScraper.scrape_project_with_units(project_url)`: Blocked or
load-failed fetch gives a single CAPTCHA record; a fault in the project
extraction gives a single `project_error` record; otherwise the project
summary record first, then every unit whose scrape produced no `Error`,
tagged, in discovery order (failed units are skipped). -/
def scrape_project_with_units (env : ScrapeEnv) (project_url : String) :
    List PRecord :=
  match scrape_with_captcha_protection env.fetch project_url with
  | none => [captchaRecord project_url env.now]
  | some soup =>
    if env.projectFault project_url then
      [[("URL", vstr project_url),
        ("Title", vstr "Error scraping project"),
        ("Error", vstr ("project_error: " ++ env.faultMsg project_url)),
        ("Extraction Date", vstr env.now)]]
    else
      let project_info := extract_project_info soup project_url env.now
      let unit_links := extract_unit_links env project_url
      unit_links.foldl
        (fun acc unit_url =>
          let unit_result := scrape_unit_property env unit_url
          if !unit_result.isEmpty && !(truthy (pyGet unit_result "Error")) then
            acc ++ [tag_project_unit project_url project_info unit_result]
          else acc)
        [project_info]

/-! ### `utils/file_handlers.py` -/

structure Stats where
  total_records : Nat
  valid_records : Nat
  projects : Nat
  project_units : Nat
  individual_properties : Int
  lots_land : Nat
  deriving DecidableEq, Repr

/-- `DataHandler.generate_statistics(data)`. -/
def generate_statistics (data : List PRecord) : Stats :=
  let valid_data := data.filter
    (fun item => !(pyGet item "Title" == vstr "N/A") && !truthy (pyGet item "Error"))
  let projects := data.filter (fun item => pyGet item "Is_Project" == vstr "Sí")
  let project_units := data.filter
    (fun item => pyGet item "Is_Project_Unit" == vstr "Sí")
  let lots := data.filter
    (fun item => pyGet item "Property_Category" == vstr "Lote/Terreno")
  { total_records := data.length
    valid_records := valid_data.length
    projects := projects.length
    project_units := project_units.length
    individual_properties :=
      (valid_data.length : Int) - projects.length - project_units.length
    lots_land := lots.length }

/-- `DataHandler.save_data(data)`: a no-op on an empty list, otherwise a
full rewrite of the CSV/JSON pair; a flush is modelled as appending the
written record list to the `writes` trace. -/
def handler_save_data (writes : List (List PRecord)) (data : List PRecord) :
    List (List PRecord) :=
  if data.isEmpty then writes else writes ++ [data]

/-- The orchestrator's record/persistence state: the accumulated record
list, the two counters of `ProperatiScraper`, and the trace of flushes
performed by the `DataHandler`. -/
structure Store where
  data : List PRecord
  properties_processed : Nat
  backup_counter : Nat
  writes : List (List PRecord)
  deriving DecidableEq

/-- `ProperatiScraper._save_data_incremental(new_properties_count,
force_save)`, parameterized by the configured `BACKUP_INTERVAL`. -/
def save_data_incremental (interval : Nat) (st : Store)
    (new_properties_count : Nat) (force_save : Bool) : Store :=
  if st.data.isEmpty then st
  else
    let st := { st with
      properties_processed := st.properties_processed + new_properties_count
      backup_counter := st.backup_counter + new_properties_count }
    if force_save || st.backup_counter ≥ interval then
      { st with writes := handler_save_data st.writes st.data, backup_counter := 0 }
    else st

/-! ### `scrapers/listing_scraper.py` -/

/-- `ListingScraper.extract_links_from_soup(soup)`.  The Python function
collects into a `set` and returns `list(links)`; the set's iteration
order is unspecified, modelled here as insertion order. -/
def extract_links_from_soup (soup : Soup) : List String :=
  LINK_SELECTORS.foldl
    (fun acc sel =>
      (soup.selectLinkAttrs sel).foldl
        (fun acc href? =>
          match href? with
          | none => acc
          | some href =>
            if !(href = "") then
              let full_url := urljoinBase href
              if inStr "/detalle/" full_url || inStr "/proyecto/" full_url then
                appendNew acc full_url
              else acc
            else acc)
        acc)
    []

/-- `ListingScraper.check_pagination_limit(soup, page_num)`. -/
def check_pagination_limit (soup : Soup) (_page_num : Nat) : Bool :=
  if !(soup.selectTexts ".no-results, .empty-state, .no-listings").isEmpty then
    true
  else
    match soup.nextButtonsHtml with
    | h :: _ => inStr "disabled" h
    | [] => false

/-! ### `main.py` — the run loop of `ProperatiScraper.run` -/

structure RunCfg where
  mode : String
  max_pages : Nat
  scrape_project_units : Bool

/-- The orchestrator's run state: the captcha-encountered flag, the trace
of listing-page fetches `(url, blocked?)`, and the record store. -/
structure RunSt where
  captcha_encountered : Bool
  trace : List (String × Bool)
  store : Store

/-- The body of the per-link loop: dispatch to the project scraper or the
detail scraper, append the produced records, checkpoint.  The second
component tracks whether `page_properties` received an entry. -/
def process_link (env : ScrapeEnv) (cfg : RunCfg) (st : RunSt)
    (page_props : Bool) (link : String) : RunSt × Bool :=
  if st.captcha_encountered then (st, page_props)
  else if inStr "/proyecto/" link && cfg.scrape_project_units then
    let project_data := scrape_project_with_units env link
    if project_data.isEmpty then (st, page_props)
    else
      let store := { st.store with data := st.store.data ++ project_data }
      ({ st with
         store := save_data_incremental BACKUP_INTERVAL store
           project_data.length false },
       page_props)
  else
    let property_result := scrape_property env link
    if !property_result.isEmpty && !truthy (pyGet property_result "Error") then
      let store := { st.store with data := st.store.data ++ [property_result] }
      ({ st with store := save_data_incremental BACKUP_INTERVAL store 1 false },
       true)
    else
      let property_result :=
        if !truthy (pyGet property_result "Error") then
          rset property_result "Error" (vstr "Invalid data or CAPTCHA")
        else property_result
      let store := { st.store with data := st.store.data ++ [property_result] }
      ({ st with store := save_data_incremental BACKUP_INTERVAL store 1 false },
       true)

def process_links (env : ScrapeEnv) (cfg : RunCfg) (st : RunSt)
    (links : List String) : RunSt × Bool :=
  links.foldl (fun p link => process_link env cfg p.1 p.2 link) (st, false)

/-- The listing URL built for a section/page pair. -/
def page_url (sec : String) (page : Nat) : String :=
  if page = 1 then BASE_URL ++ "/s/" ++ sec
  else BASE_URL ++ "/s/" ++ sec ++ "/" ++ toString page

/-- The record-processing part of one page iteration: run the per-link
loop over the page's links, then force a checkpoint save when
`page_properties` is non-empty. -/
def page_step (env : ScrapeEnv) (cfg : RunCfg) (st : RunSt) (soup : Soup) :
    RunSt :=
  let p := process_links env cfg st (extract_links_from_soup soup)
  if p.2 then
    { p.1 with store := save_data_incremental BACKUP_INTERVAL p.1.store 0 true }
  else p.1

/-- The `for page in range(1, max_pages+1)` loop.  A blocked listing
fetch sets the captcha flag, runs `_handle_captcha` (a pure pause plus
browser restart, no record-state effect) and `continue`s; the next
iteration then breaks on the flag. -/
def pages_loop (env : ScrapeEnv) (cfg : RunCfg) (sec : String) :
    Nat → Nat → RunSt → RunSt
  | _, 0, st => st
  | page, fuel + 1, st =>
    if st.captcha_encountered then st
    else
      let url := page_url sec page
      match scrape_with_captcha_protection env.fetch url with
      | none =>
        pages_loop env cfg sec (page + 1) fuel
          { st with captcha_encountered := true, trace := st.trace ++ [(url, true)] }
      | some soup =>
        let st' := { st with trace := st.trace ++ [(url, false)] }
        if check_pagination_limit soup page then st'
        else if (extract_links_from_soup soup).isEmpty then st'
        else pages_loop env cfg sec (page + 1) fuel (page_step env cfg st' soup)

/-- The section loop: once the captcha flag is set the remaining sections
are skipped. -/
def sections_loop (env : ScrapeEnv) (cfg : RunCfg) :
    List String → RunSt → RunSt
  | [], st => st
  | sec :: rest, st =>
    if st.captcha_encountered then st
    else sections_loop env cfg rest (pages_loop env cfg sec 1 cfg.max_pages st)

def initialRunSt : RunSt :=
  { captcha_encountered := false, trace := [],
    store := { data := [], properties_processed := 0, backup_counter := 0,
               writes := [] } }

/-- `ProperatiScraper.run()` on its normal path: traverse the configured
sections, then perform the final `save_data` (statistics logging has no
record-state effect). -/
def run_scraper (env : ScrapeEnv) (cfg : RunCfg) : RunSt :=
  let sections := if cfg.mode = "todos" then ["venta", "arriendo"] else [cfg.mode]
  let st := sections_loop env cfg sections initialRunSt
  { st with
    store := { st.store with
               writes := handler_save_data st.store.writes st.store.data } }

/-! ### Modelled call sequence for the checkpoint cadence

One `_save_data_incremental(1)` call as the orchestrator performs it:
append the newly produced record to the accumulated list, then invoke the
incremental save recording one new item. -/

def record_then_save (interval : Nat) (st : Store) (r : PRecord) : Store :=
  save_data_incremental interval { st with data := st.data ++ [r] } 1 false

def record_run (interval : Nat) (st : Store) (recs : List PRecord) : Store :=
  recs.foldl (record_then_save interval) st

/-! ### Concrete fixtures (used by the witness and counterexample
theorems below) -/

def fixNow : String := "2026-10-12 00:00"

def pureEnv (fetch : String → FetchRes) : ScrapeEnv :=
  { fetch := fetch, now := fixNow, parseFault := fun _ => false,
    faultMsg := fun _ => "", projectFault := fun _ => false }

def garageSoupA : Soup := { emptySoup with
  findAllClassRe := fun p =>
    if p = "details-item-value|value|facilities__item" then ["2 parqueaderos"]
    else [] }

def garageSoupB : Soup := { emptySoup with
  findAllClassRe := fun p =>
    if p = "details-item-value|value|facilities__item" then ["45 m² de parqueadero"]
    else [] }

def bizSoupC5 : Soup := { emptySoup with pageText := "se ofrece en venta y arriendo" }

def rentaSoup : Soup := { emptySoup with pageText := "renta de apartamento" }

def ventaSoup : Soup := { emptySoup with pageText := "gran venta de apartamento" }

def c5url : String := "https://www.properati.com.co/venta-oficina/arriendo/1"

def c5urlClean : String := "https://x.co/arriendo/apto-1"

def c5urlNoKw : String := "https://x.co/p/1"

def lotSoup : Soup := { emptySoup with
  selectOneText := fun sel =>
    if sel = "[data-test='property-type-value']" then some "Lote de terreno"
    else none }

def envUnknown : ScrapeEnv := pureEnv (fun _ => FetchRes.page emptySoup)

def unknownUrl : String := "https://www.properati.com.co/otro/x"

def envLoadFail : ScrapeEnv := pureEnv (fun _ => FetchRes.navErr)

def envTimeout : ScrapeEnv := pureEnv (fun _ => FetchRes.timeout)

def c3url : String := "https://www.properati.com.co/detalle/x"

def captchaSoup : Soup := { emptySoup with
  pageText := "Security verification required" }

def envBlockedPage : ScrapeEnv := pureEnv (fun _ => FetchRes.page captchaSoup)

def envFault : ScrapeEnv :=
  { fetch := fun _ => FetchRes.page emptySoup, now := fixNow,
    parseFault := fun _ => true, faultMsg := fun _ => "boom",
    projectFault := fun _ => false }

def projSoup : Soup := { emptySoup with
  selectHrefs := fun sel =>
    if sel = "a[href*='/detalle/']" then
      [some "/detalle/u1", some "/detalle/u2", some "/detalle/u3"]
    else [] }

def purlFix : String := "https://www.properati.com.co/proyecto/p1"

def u1Fix : String := "https://www.properati.com.co/detalle/u1"

def u2Fix : String := "https://www.properati.com.co/detalle/u2"

def u3Fix : String := "https://www.properati.com.co/detalle/u3"

def envC2 : ScrapeEnv := pureEnv (fun u =>
  if u = purlFix then FetchRes.page projSoup
  else if u = u2Fix then FetchRes.navErr
  else FetchRes.page emptySoup)

def dummyRec : PRecord := [("URL", vstr "https://www.properati.com.co/detalle/d")]

def store8 : Store :=
  { data := [dummyRec], properties_processed := 0, backup_counter := 0, writes := [] }

def cfgFix : RunCfg := { mode := "venta", max_pages := 2, scrape_project_units := true }

/-! ### Trace and store predicates used by the run-level theorems -/

/-- Every listing fetch in the trace succeeded (none was blocked). -/
def cleanTrace (tr : List (String × Bool)) : Prop :=
  ∀ e ∈ tr, e.2 = false

/-- The trace ends in a blocked fetch and everything before it was
clean. -/
def blockedLast (tr : List (String × Bool)) : Prop :=
  ∃ pre u, tr = pre ++ [(u, true)] ∧ cleanTrace pre

/-- One run-state follows another without writing while the record list
is empty: if the later state still has no records, the earlier one had
none and no flush happened in between. -/
def NilPreserve (a b : RunSt) : Prop :=
  b.store.data = [] → a.store.data = [] ∧ b.store.writes = a.store.writes

/-! ## Theorems -/

/-! ### Substring-containment helper lemmas -/

theorem inStr_eq_true_iff {needle hay : String} :
    inStr needle hay = true ↔ needle.data <:+: hay.data := by
  unfold inStr
  rw [List.any_eq_true]
  constructor
  · rintro ⟨t, ht, hp⟩
    rw [List.mem_tails _ _] at ht
    rw [List.isPrefixOf_iff_prefix] at hp
    exact List.infix_iff_prefix_suffix.mpr ⟨t, hp, ht⟩
  · intro h
    obtain ⟨t, hp, ht⟩ := List.infix_iff_prefix_suffix.mp h
    exact ⟨t, (List.mem_tails _ _).mpr ht, List.isPrefixOf_iff_prefix.mpr hp⟩

theorem inStr_mono {a b c : String} (hab : inStr a b = true)
    (hbc : inStr b c = true) : inStr a c = true := by
  rw [inStr_eq_true_iff] at hab hbc ⊢
  exact hab.trans hbc

theorem inStr_false_of_sub {a b c : String} (hab : inStr a b = true)
    (hac : inStr a c = false) : inStr b c = false := by
  cases hv : inStr b c
  · rfl
  · rw [inStr_mono hab hv] at hac
    exact hac

/-! ### Record and scraper helper lemmas -/

theorem rget_rset_ne (r : PRecord) (kset kget : String) (v : Val)
    (h : kset ≠ kget) : rget (rset r kset v) kget = rget r kget := by
  induction r with
  | nil => simp [rset, rget, h]
  | cons a t ih =>
    obtain ⟨ak, av⟩ := a
    by_cases hak : ak = kset
    · subst hak
      simp only [rset, if_pos rfl]
      by_cases hkg : ak = kget
      · exact absurd hkg.symm (by exact fun hk => h (hk ▸ rfl))
      · simp [rget, hkg]
    · simp only [rset, if_neg hak]
      by_cases hkg : ak = kget
      · simp [rget, hkg]
      · simp [rget, hkg, ih]

theorem hasField_rset_ne (r : PRecord) (kset kget : String) (v : Val)
    (h : kset ≠ kget) :
    hasField (rset r kset v) kget = hasField r kget := by
  simp [hasField, rget_rset_ne r kset kget v h]

theorem foldl_preserve {α β : Type} (P : α → Prop) {f : α → β → α}
    (hf : ∀ a b, P a → P (f a b)) :
    ∀ (l : List β) (a : α), P a → P (l.foldl f a) := by
  intro l
  induction l with
  | nil => intro a ha; exact ha
  | cons b t ih => intro a ha; exact ih (f a b) (hf a b ha)

theorem appendNew_preserve {P : String → Prop} (acc : List String) (u : String)
    (hacc : ∀ x ∈ acc, P x) (hu : P u) : ∀ x ∈ appendNew acc u, P x := by
  unfold appendNew
  split
  · exact hacc
  · intro x hx
    rcases List.mem_append.mp hx with hl | hr
    · exact hacc x hl
    · rw [List.mem_singleton.mp hr]
      exact hu

theorem urljoinBase_ne_empty (h : String) : urljoinBase h ≠ "" := by
  unfold urljoinBase
  split_ifs with h1 h2 h3
  · intro heq
    rw [heq] at h1
    exact absurd h1 (by decide)
  · intro heq
    have hd : "https:".data ++ h.data = ([] : List Char) := congrArg String.data heq
    exact absurd (List.append_eq_nil.mp hd).1 (by decide)
  · intro heq
    have hd : BASE_URL.data ++ h.data = ([] : List Char) := congrArg String.data heq
    exact absurd (List.append_eq_nil.mp hd).1 (by decide)
  · intro heq
    have hd : (BASE_URL ++ "/").data ++ h.data = ([] : List Char) :=
      congrArg String.data heq
    exact absurd (List.append_eq_nil.mp hd).1 (by decide)

theorem mem_unit_links_general_ne_empty (soup : Soup) :
    ∀ u ∈ unit_links_general soup, u ≠ "" := by
  have hinner : ∀ (l : List (Option String)) (acc : List String),
      (∀ x ∈ acc, x ≠ "") →
      ∀ x ∈ l.foldl (fun acc href? =>
        match href? with
        | none => acc
        | some href =>
          if !(href = "") && inStr "/detalle/" href then
            appendNew acc (urljoinBase href)
          else acc) acc, x ≠ "" := by
    intro l
    refine foldl_preserve (fun acc => ∀ x ∈ acc, x ≠ "") ?_ l
    intro acc href? hacc
    match href? with
    | none => exact hacc
    | some href =>
      dsimp only
      split
      · exact appendNew_preserve acc _ hacc (urljoinBase_ne_empty href)
      · exact hacc
  unfold unit_links_general
  refine foldl_preserve (fun acc => ∀ x ∈ acc, x ≠ "") ?_ unitLinkSelectors []
    (fun x hx => absurd hx (List.not_mem_nil x))
  intro acc sel hacc
  exact hinner (soup.selectHrefs sel) acc hacc

theorem mem_unit_links_scoped_ne_empty (soup : Soup) :
    ∀ u ∈ unit_links_scoped soup, u ≠ "" := by
  unfold unit_links_scoped
  refine foldl_preserve (fun acc => ∀ x ∈ acc, x ≠ "") ?_ soup.unitSectionHrefs []
    (fun x hx => absurd hx (List.not_mem_nil x))
  intro acc href? hacc
  match href? with
  | none => exact hacc
  | some href =>
    dsimp only
    split
    · exact appendNew_preserve acc _ hacc (urljoinBase_ne_empty href)
    · exact hacc

theorem mem_extract_unit_links_ne_empty (env : ScrapeEnv) (purl : String) :
    ∀ u ∈ extract_unit_links env purl, u ≠ "" := by
  intro u hu
  unfold extract_unit_links at hu
  revert hu
  cases scrape_with_captcha_protection env.fetch purl with
  | none => exact fun hu => absurd hu (List.not_mem_nil u)
  | some soup =>
    intro hu
    have hu' : u ∈ (if (unit_links_general soup).isEmpty = true then
        unit_links_scoped soup else unit_links_general soup) := hu
    by_cases hA : (unit_links_general soup).isEmpty = true
    · rw [if_pos hA] at hu'
      exact mem_unit_links_scoped_ne_empty soup u hu'
    · rw [if_neg hA] at hu'
      exact mem_unit_links_general_ne_empty soup u hu'

theorem scrape_unit_property_fields (env : ScrapeEnv) (u : String) :
    rget (scrape_unit_property env u) "URL" = some (vstr u) ∧
    hasField (scrape_unit_property env u) "Extraction Date" = true ∧
    (scrape_unit_property env u).isEmpty = false := by
  unfold scrape_unit_property
  cases hfe : scrape_with_captcha_protection env.fetch u with
  | none => exact ⟨rfl, rfl, rfl⟩
  | some soup =>
    cases hfa : env.parseFault u
    · exact ⟨rfl, rfl, rfl⟩
    · exact ⟨rfl, rfl, rfl⟩

theorem mem_units_foldl (env : ScrapeEnv) (purl : String) (info : PRecord) :
    ∀ (links : List String) (acc : List PRecord) (r : PRecord),
      r ∈ links.foldl (fun acc unit_url =>
        let unit_result := scrape_unit_property env unit_url
        if !unit_result.isEmpty && !truthy (pyGet unit_result "Error") then
          acc ++ [tag_project_unit purl info unit_result]
        else acc) acc →
      r ∈ acc ∨
        ∃ u ∈ links, r = tag_project_unit purl info (scrape_unit_property env u) := by
  intro links
  induction links with
  | nil => intro acc r hr; exact Or.inl hr
  | cons u t ih =>
    intro acc r hr
    rw [List.foldl_cons] at hr
    rcases ih _ r hr with hacc | ⟨w, hw, hrw⟩
    · by_cases hc : (!(scrape_unit_property env u).isEmpty &&
          !truthy (pyGet (scrape_unit_property env u) "Error")) = true
      · rw [if_pos hc] at hacc
        rcases List.mem_append.mp hacc with hl | hone
        · exact Or.inl hl
        · exact Or.inr ⟨u, List.mem_cons_self u t, List.mem_singleton.mp hone⟩
      · rw [if_neg hc] at hacc
        exact Or.inl hacc
    · exact Or.inr ⟨w, List.mem_cons_of_mem u hw, hrw⟩

theorem tag_project_unit_fields (purl : String) (info r : PRecord) :
    rget (tag_project_unit purl info r) "URL" = rget r "URL" ∧
    hasField (tag_project_unit purl info r) "Extraction Date" =
      hasField r "Extraction Date" := by
  unfold tag_project_unit
  refine ⟨?_, ?_⟩
  · rw [rget_rset_ne _ _ _ _ (by decide), rget_rset_ne _ _ _ _ (by decide),
      rget_rset_ne _ _ _ _ (by decide)]
  · rw [hasField_rset_ne _ _ _ _ (by decide), hasField_rset_ne _ _ _ _ (by decide),
      hasField_rset_ne _ _ _ _ (by decide)]

/-! ### C1 -/

/-- C1 counterexample: a successfully fetched URL that matches neither
the `/proyecto/` nor the `/detalle/` path marker produces the
Unknown-URL-type record, which carries no Extraction Date field — so the
claim that every record from a scrape entry point has an Extraction Date
fails on that path. -/
theorem c1_counterexample :
    scrape_property envUnknown unknownUrl =
      [("URL", vstr unknownUrl), ("Error", vstr "Unknown URL type")] ∧
    hasField (scrape_property envUnknown unknownUrl) "Extraction Date" = false :=
  ⟨rfl, rfl⟩

/-- C1 (amended): every record produced by `scrape_property`,
`scrape_unit_property` or `scrape_project_with_units` (on the Blocked,
LoadFailure, ExtractionFault and success paths) carries the non-empty
request URL in its URL field and has an Extraction Date field — except
the Unknown-URL-type record of `scrape_property`, which still carries the
URL but lacks the Extraction Date field. -/
theorem c1_records_have_url_and_date :
    (∀ (env : ScrapeEnv) (url : String), url ≠ "" →
      rget (scrape_property env url) "URL" = some (vstr url) ∧
      (hasField (scrape_property env url) "Extraction Date" = true ∨
        scrape_property env url =
          [("URL", vstr url), ("Error", vstr "Unknown URL type")])) ∧
    (∀ url : String,
      hasField [("URL", vstr url), ("Error", vstr "Unknown URL type")]
        "Extraction Date" = false) ∧
    (∀ (env : ScrapeEnv) (url : String), url ≠ "" →
      rget (scrape_unit_property env url) "URL" = some (vstr url) ∧
      hasField (scrape_unit_property env url) "Extraction Date" = true) ∧
    (∀ (env : ScrapeEnv) (purl : String), purl ≠ "" →
      ∀ r ∈ scrape_project_with_units env purl,
        (∃ u, u ≠ "" ∧ rget r "URL" = some (vstr u)) ∧
        hasField r "Extraction Date" = true) := by
  refine ⟨?_, ?_, ?_, ?_⟩
  · intro env url _
    unfold scrape_property
    cases hfe : scrape_with_captcha_protection env.fetch url with
    | none => exact ⟨rfl, Or.inl rfl⟩
    | some soup =>
      cases hp : inStr "/proyecto/" url
      · cases hd : inStr "/detalle/" url
        · exact ⟨rfl, Or.inr rfl⟩
        · cases hfa : env.parseFault url
          · exact ⟨rfl, Or.inl rfl⟩
          · exact ⟨rfl, Or.inl rfl⟩
      · cases hfa : env.parseFault url
        · exact ⟨rfl, Or.inl rfl⟩
        · exact ⟨rfl, Or.inl rfl⟩
  · intro url
    rfl
  · intro env url _
    obtain ⟨h1, h2, _⟩ := scrape_unit_property_fields env url
    exact ⟨h1, h2⟩
  · intro env purl hp r hr
    unfold scrape_project_with_units at hr
    revert hr
    cases hfe : scrape_with_captcha_protection env.fetch purl with
    | none =>
      intro hr
      obtain rfl := List.mem_singleton.mp hr
      exact ⟨⟨purl, hp, rfl⟩, rfl⟩
    | some soup =>
      cases hpf : env.projectFault purl
      · intro hr
        rcases mem_units_foldl env purl (extract_project_info soup purl env.now)
            (extract_unit_links env purl)
            [extract_project_info soup purl env.now] r hr with hin | ⟨u, hu, rfl⟩
        · obtain rfl := List.mem_singleton.mp hin
          exact ⟨⟨purl, hp, rfl⟩, rfl⟩
        · obtain ⟨ht1, ht2⟩ := tag_project_unit_fields purl
            (extract_project_info soup purl env.now) (scrape_unit_property env u)
          obtain ⟨hu1, hu2, _⟩ := scrape_unit_property_fields env u
          refine ⟨⟨u, mem_extract_unit_links_ne_empty env purl u hu, ?_⟩, ?_⟩
          · rw [ht1, hu1]
          · rw [ht2, hu2]
      · intro hr
        obtain rfl := List.mem_singleton.mp hr
        exact ⟨⟨purl, hp, rfl⟩, rfl⟩

theorem c1_witness :
    c3url ≠ "" ∧ purlFix ≠ "" ∧
    (rget (scrape_property envUnknown c3url) "URL" = some (vstr c3url) ∧
      (hasField (scrape_property envUnknown c3url) "Extraction Date" = true ∨
        scrape_property envUnknown c3url =
          [("URL", vstr c3url), ("Error", vstr "Unknown URL type")])) ∧
    hasField [("URL", vstr unknownUrl), ("Error", vstr "Unknown URL type")]
      "Extraction Date" = false ∧
    (rget (scrape_unit_property envC2 u1Fix) "URL" = some (vstr u1Fix) ∧
      hasField (scrape_unit_property envC2 u1Fix) "Extraction Date" = true) ∧
    ((∃ u, u ≠ "" ∧
        rget (captchaRecord purlFix fixNow) "URL" = some (vstr u)) ∧
      hasField (captchaRecord purlFix fixNow) "Extraction Date" = true) :=
  ⟨by decide, by decide,
   c1_records_have_url_and_date.1 envUnknown c3url (by decide),
   c1_records_have_url_and_date.2.1 unknownUrl,
   c1_records_have_url_and_date.2.2.1 envC2 u1Fix (by decide),
   c1_records_have_url_and_date.2.2.2 envLoadFail purlFix (by decide)
     (captchaRecord purlFix fixNow) (by decide)⟩

/-! ### C2 -/

/-- C2 counterexample: a project page that fetches successfully and
yields three discoverable unit links, of which unit #2 fails, produces
exactly **3** records (1 project + 2 successful units), not the claimed
4. -/
theorem c2_counterexample :
    scrape_with_captcha_protection envC2.fetch purlFix = some projSoup ∧
    extract_unit_links envC2 purlFix = [u1Fix, u2Fix, u3Fix] ∧
    truthy (pyGet (scrape_unit_property envC2 u2Fix) "Error") = true ∧
    truthy (pyGet (scrape_unit_property envC2 u1Fix) "Error") = false ∧
    truthy (pyGet (scrape_unit_property envC2 u3Fix) "Error") = false ∧
    (scrape_project_with_units envC2 purlFix).length = 3 :=
  ⟨rfl, rfl, rfl, rfl, rfl, rfl⟩

/-- C2 (amended): on a project whose fetch succeeds and yields 3
discoverable unit links where the scrape of unit #2 fails (returns a
record with Error set), `scrape_project_with_units` returns exactly **3**
records: the project summary record first, then the successful units #1
and #3 in discovery order, each tagged as a project unit; unit #2 is
absent from the result (not present with an Error flag). -/
theorem c2_project_with_failed_unit (env : ScrapeEnv) (purl : String) (s : Soup)
    (u1 u2 u3 : String)
    (hfe : scrape_with_captcha_protection env.fetch purl = some s)
    (hpf : env.projectFault purl = false)
    (hlinks : extract_unit_links env purl = [u1, u2, u3])
    (herr2 : truthy (pyGet (scrape_unit_property env u2) "Error") = true)
    (herr1 : truthy (pyGet (scrape_unit_property env u1) "Error") = false)
    (herr3 : truthy (pyGet (scrape_unit_property env u3) "Error") = false) :
    scrape_project_with_units env purl =
      [extract_project_info s purl env.now,
       tag_project_unit purl (extract_project_info s purl env.now)
         (scrape_unit_property env u1),
       tag_project_unit purl (extract_project_info s purl env.now)
         (scrape_unit_property env u3)] := by
  have hne1 : (scrape_unit_property env u1).isEmpty = false :=
    (scrape_unit_property_fields env u1).2.2
  have hne2 : (scrape_unit_property env u2).isEmpty = false :=
    (scrape_unit_property_fields env u2).2.2
  have hne3 : (scrape_unit_property env u3).isEmpty = false :=
    (scrape_unit_property_fields env u3).2.2
  have hne1' : scrape_unit_property env u1 ≠ [] := by
    intro h
    rw [h] at hne1
    exact absurd hne1 (by decide)
  have hne3' : scrape_unit_property env u3 ≠ [] := by
    intro h
    rw [h] at hne3
    exact absurd hne3 (by decide)
  unfold scrape_project_with_units
  rw [hfe, hpf, hlinks]
  simp [hne1', hne3', herr1, herr2, herr3]

theorem c2_witness :
    scrape_project_with_units envC2 purlFix =
      [extract_project_info projSoup purlFix envC2.now,
       tag_project_unit purlFix (extract_project_info projSoup purlFix envC2.now)
         (scrape_unit_property envC2 u1Fix),
       tag_project_unit purlFix (extract_project_info projSoup purlFix envC2.now)
         (scrape_unit_property envC2 u3Fix)] :=
  c2_project_with_failed_unit envC2 purlFix projSoup u1Fix u2Fix u3Fix
    rfl rfl rfl rfl rfl rfl

/-! ### C3 -/

/-- C3 counterexample: a fetch that fails with a navigation error (a
LoadFailure, not a CAPTCHA) still produces a record with
Error = "CAPTCHA detected" — the two error-taxonomy cases are *not*
distinguishable in the produced record. -/
theorem c3_counterexample :
    envLoadFail.fetch c3url = FetchRes.navErr ∧
    rget (scrape_property envLoadFail c3url) "Error" =
      some (vstr "CAPTCHA detected") :=
  ⟨rfl, rfl⟩

/-- C3 (amended): `scrape_property` returns Error = "CAPTCHA detected"
whenever the protected fetch yields `None`, and the fetch yields `None`
alike on a detected CAPTCHA, a navigation error and a readiness timeout —
so LoadFailure is not distinguishable from Blocked in the produced
record; only a fault raised while parsing an already-fetched page yields
the distinct `scraping_error:` diagnostic code. -/
theorem c3_fetch_failure_error_codes :
    (∀ (env : ScrapeEnv) (url : String),
      scrape_with_captcha_protection env.fetch url = none →
      rget (scrape_property env url) "Error" = some (vstr "CAPTCHA detected")) ∧
    (∀ (env : ScrapeEnv) (url : String), env.fetch url = FetchRes.navErr →
      scrape_with_captcha_protection env.fetch url = none) ∧
    (∀ (env : ScrapeEnv) (url : String), env.fetch url = FetchRes.timeout →
      scrape_with_captcha_protection env.fetch url = none) ∧
    (∀ (env : ScrapeEnv) (url : String) (soup : Soup),
      env.fetch url = FetchRes.page soup → detect_captcha soup = true →
      scrape_with_captcha_protection env.fetch url = none) ∧
    (∀ (env : ScrapeEnv) (url : String) (soup : Soup),
      env.fetch url = FetchRes.page soup → detect_captcha soup = false →
      env.parseFault url = true → inStr "/proyecto/" url = false →
      inStr "/detalle/" url = true →
      rget (scrape_property env url) "Error" =
        some (vstr ("scraping_error: " ++ env.faultMsg url))) := by
  refine ⟨?_, ?_, ?_, ?_, ?_⟩
  · intro env url hfe
    unfold scrape_property
    rw [hfe]
    rfl
  · intro env url hf
    unfold scrape_with_captcha_protection
    rw [hf]
  · intro env url hf
    unfold scrape_with_captcha_protection
    rw [hf]
  · intro env url soup hf hc
    unfold scrape_with_captcha_protection
    rw [hf]
    simp [hc]
  · intro env url soup hf hc hfa hp hd
    have hfe : scrape_with_captcha_protection env.fetch url = some soup := by
      unfold scrape_with_captcha_protection
      rw [hf]
      simp [hc]
    unfold scrape_property
    rw [hfe, hp, hd, hfa]
    rfl

theorem c3_witness :
    rget (scrape_property envLoadFail c3url) "Error" =
      some (vstr "CAPTCHA detected") ∧
    scrape_with_captcha_protection envLoadFail.fetch c3url = none ∧
    scrape_with_captcha_protection envTimeout.fetch c3url = none ∧
    scrape_with_captcha_protection envBlockedPage.fetch c3url = none ∧
    rget (scrape_property envFault c3url) "Error" =
      some (vstr ("scraping_error: " ++ envFault.faultMsg c3url)) :=
  ⟨c3_fetch_failure_error_codes.1 envLoadFail c3url rfl,
   c3_fetch_failure_error_codes.2.1 envLoadFail c3url rfl,
   c3_fetch_failure_error_codes.2.2.1 envTimeout c3url rfl,
   c3_fetch_failure_error_codes.2.2.2.1 envBlockedPage c3url captchaSoup rfl rfl,
   c3_fetch_failure_error_codes.2.2.2.2 envFault c3url emptySoup rfl rfl rfl rfl
     rfl⟩

/-! ### C4 -/

/-- C4: garage extraction.  For a document whose only garage-related
element is a keyword-tier element with text "2 parqueaderos" (and no
matches in the other tiers), `_extract_garage_specific` returns "2"; for
one whose only such element reads "45 m² de parqueadero", the area-keyword
exclusion suppresses the match and the extractor returns "N/A". -/
theorem c4_garage_extraction (s1 s2 : Soup)
    (h1a : s1.selectTexts "[data-test=\x22parking-lots-value\x22]" = [])
    (h1b : s1.garageIconValueTexts = [])
    (h1c : s1.findAllClassRe "details-item-value|value|facilities__item" =
      ["2 parqueaderos"])
    (h1d : s1.selectTexts ".facilities__item" = [])
    (h2a : s2.selectTexts "[data-test=\x22parking-lots-value\x22]" = [])
    (h2b : s2.garageIconValueTexts = [])
    (h2c : s2.findAllClassRe "details-item-value|value|facilities__item" =
      ["45 m² de parqueadero"])
    (h2d : s2.selectTexts ".facilities__item" = []) :
    extract_garage_specific s1 = "2" ∧ extract_garage_specific s2 = "N/A" := by
  constructor
  · unfold extract_garage_specific
    rw [h1a, h1b, h1c, h1d]
    rfl
  · unfold extract_garage_specific
    rw [h2a, h2b, h2c, h2d]
    rfl

theorem c4_witness :
    extract_garage_specific garageSoupA = "2" ∧
    extract_garage_specific garageSoupB = "N/A" :=
  c4_garage_extraction garageSoupA garageSoupB rfl rfl rfl rfl rfl rfl rfl rfl

/-! ### C5 -/

/-- C5 counterexample: a property URL that contains both "/arriendo/" and
"venta", with no operation-type field and a page text containing both
keywords, is classified "Venta", not "Arriendo" — the URL tier checks
"venta" first, so the claim's universal statement fails. -/
theorem c5_counterexample :
    bizSoupC5.selectOneText "[data-test='operation-type-value']" = none ∧
    bizSoupC5.selectOneText ".operation-type .place-features__values" = none ∧
    inStr "/arriendo/" c5url = true ∧
    inStr "venta" (lowerStr bizSoupC5.pageText) = true ∧
    inStr "arriendo" (lowerStr bizSoupC5.pageText) = true ∧
    extract_business_type c5url bizSoupC5 = "Venta" :=
  ⟨rfl, rfl, rfl, rfl, rfl, rfl⟩

/-- C5 (amended): with no operation-type field, a URL containing
"/arriendo/" *and not containing "venta"* yields "Arriendo" (the URL tier
decides before the page text is consulted); in the page-text tier,
"Arriendo" is returned whenever "arriendo" appears regardless of "venta"
co-occurrence, and whenever "renta" appears with "venta" absent; "Venta"
is returned from page text only when "arriendo" is absent. -/
theorem c5_business_type_precedence :
    (∀ (s : Soup) (url : String),
      s.selectOneText "[data-test='operation-type-value']" = none →
      s.selectOneText ".operation-type .place-features__values" = none →
      inStr "/arriendo/" (lowerStr url) = true →
      inStr "venta" (lowerStr url) = false →
      extract_business_type url s = "Arriendo") ∧
    (∀ (s : Soup) (url : String),
      s.selectOneText "[data-test='operation-type-value']" = none →
      s.selectOneText ".operation-type .place-features__values" = none →
      inStr "venta" (lowerStr url) = false →
      inStr "arriendo" (lowerStr url) = false →
      inStr "renta" (lowerStr url) = false →
      inStr "arriendo" (lowerStr s.pageText) = true →
      extract_business_type url s = "Arriendo") ∧
    (∀ (s : Soup) (url : String),
      s.selectOneText "[data-test='operation-type-value']" = none →
      s.selectOneText ".operation-type .place-features__values" = none →
      inStr "venta" (lowerStr url) = false →
      inStr "arriendo" (lowerStr url) = false →
      inStr "renta" (lowerStr url) = false →
      inStr "renta" (lowerStr s.pageText) = true →
      inStr "venta" (lowerStr s.pageText) = false →
      extract_business_type url s = "Arriendo") ∧
    (∀ (s : Soup) (url : String),
      s.selectOneText "[data-test='operation-type-value']" = none →
      s.selectOneText ".operation-type .place-features__values" = none →
      inStr "venta" (lowerStr url) = false →
      inStr "arriendo" (lowerStr url) = false →
      inStr "renta" (lowerStr url) = false →
      extract_business_type url s = "Venta" →
      inStr "arriendo" (lowerStr s.pageText) = false) := by
  have hv1 : inStr "Venta" "N/A" = false := rfl
  have hv2 : inStr "Arriendo" "N/A" = false := rfl
  have hv3 : inStr "Renta" "N/A" = false := rfl
  have hvsub : inStr "venta" "/venta/" = true := rfl
  have hasub : inStr "arriendo" "/arriendo/" = true := rfl
  refine ⟨?_, ?_, ?_, ?_⟩
  · intro s url h1 h2 harr hnv
    have hop : safe_extract s
        ["[data-test='operation-type-value']",
         ".operation-type .place-features__values"] = "N/A" := by
      simp [safe_extract, h1, h2]
    have hslash : inStr "/venta/" (lowerStr url) = false :=
      inStr_false_of_sub hvsub hnv
    simp [extract_business_type, hop, hv1, hv2, hv3, hslash, hnv, harr]
  · intro s url h1 h2 hnv hna hnr hpt
    have hop : safe_extract s
        ["[data-test='operation-type-value']",
         ".operation-type .place-features__values"] = "N/A" := by
      simp [safe_extract, h1, h2]
    have hslashv : inStr "/venta/" (lowerStr url) = false :=
      inStr_false_of_sub hvsub hnv
    have hslasha : inStr "/arriendo/" (lowerStr url) = false :=
      inStr_false_of_sub hasub hna
    simp [extract_business_type, hop, hv1, hv2, hv3, hslashv, hslasha, hnv, hna,
      hnr, hpt]
  · intro s url h1 h2 hnv hna hnr hptr hptv
    have hop : safe_extract s
        ["[data-test='operation-type-value']",
         ".operation-type .place-features__values"] = "N/A" := by
      simp [safe_extract, h1, h2]
    have hslashv : inStr "/venta/" (lowerStr url) = false :=
      inStr_false_of_sub hvsub hnv
    have hslasha : inStr "/arriendo/" (lowerStr url) = false :=
      inStr_false_of_sub hasub hna
    simp [extract_business_type, hop, hv1, hv2, hv3, hslashv, hslasha, hnv, hna,
      hnr, hptr, hptv]
  · intro s url h1 h2 hnv hna hnr heq
    have hop : safe_extract s
        ["[data-test='operation-type-value']",
         ".operation-type .place-features__values"] = "N/A" := by
      simp [safe_extract, h1, h2]
    have hslashv : inStr "/venta/" (lowerStr url) = false :=
      inStr_false_of_sub hvsub hnv
    have hslasha : inStr "/arriendo/" (lowerStr url) = false :=
      inStr_false_of_sub hasub hna
    cases ha : inStr "arriendo" (lowerStr s.pageText)
    · rfl
    · simp [extract_business_type, hop, hv1, hv2, hv3, hslashv, hslasha, hnv,
        hna, hnr, ha] at heq

theorem c5_witness :
    extract_business_type c5urlClean bizSoupC5 = "Arriendo" ∧
    extract_business_type c5urlNoKw bizSoupC5 = "Arriendo" ∧
    extract_business_type c5urlNoKw rentaSoup = "Arriendo" ∧
    inStr "arriendo" (lowerStr ventaSoup.pageText) = false :=
  ⟨c5_business_type_precedence.1 bizSoupC5 c5urlClean rfl rfl rfl rfl,
   c5_business_type_precedence.2.1 bizSoupC5 c5urlNoKw rfl rfl rfl rfl rfl rfl,
   c5_business_type_precedence.2.2.1 rentaSoup c5urlNoKw rfl rfl rfl rfl rfl rfl
     rfl,
   c5_business_type_precedence.2.2.2 ventaSoup c5urlNoKw rfl rfl rfl rfl rfl rfl⟩

/-! ### C6 -/

/-- C6: when the extracted property-type text contains a lot keyword, the
lot-or-land classification is true and the parsed detail record has
Bedrooms = "N/A", Bathrooms = "N/A" and Property_Category =
"Lote/Terreno", for every document and URL. -/
theorem c6_lot_forces_na (s : Soup) (url now : String)
    (hkw : (LOT_KEYWORDS.any fun word =>
        inStr word (lowerStr (safe_extract s propertyTypeDetectSelectors))) =
        true) :
    is_lot_or_land s = true ∧
    rget (parse_detalle_html s url now) "Bedrooms" = some (vstr "N/A") ∧
    rget (parse_detalle_html s url now) "Bathrooms" = some (vstr "N/A") ∧
    rget (parse_detalle_html s url now) "Property_Category" =
      some (vstr "Lote/Terreno") := by
  have hl : is_lot_or_land s = true := hkw
  refine ⟨hl, ?_, ?_, ?_⟩
  · have h : rget (parse_detalle_html s url now) "Bedrooms" =
        some (vstr (if is_lot_or_land s then "N/A"
          else extract_numeric_value s "bedrooms-value" BEDROOM_KEYWORDS)) := rfl
    rw [h, hl]
    simp
  · have h : rget (parse_detalle_html s url now) "Bathrooms" =
        some (vstr (if is_lot_or_land s then "N/A"
          else extract_numeric_value s "full-bathrooms-value"
            BATHROOM_KEYWORDS)) := rfl
    rw [h, hl]
    simp
  · have h : rget (parse_detalle_html s url now) "Property_Category" =
        some (vstr (if is_lot_or_land s then "Lote/Terreno"
          else "Construcción")) := rfl
    rw [h, hl]
    simp

theorem c6_witness :
    is_lot_or_land lotSoup = true ∧
    rget (parse_detalle_html lotSoup unknownUrl fixNow) "Bedrooms" =
      some (vstr "N/A") ∧
    rget (parse_detalle_html lotSoup unknownUrl fixNow) "Bathrooms" =
      some (vstr "N/A") ∧
    rget (parse_detalle_html lotSoup unknownUrl fixNow) "Property_Category" =
      some (vstr "Lote/Terreno") :=
  c6_lot_forces_na lotSoup unknownUrl fixNow rfl

/-! ### C7 -/

/-- C7: for every record list, `generate_statistics` reports
`total_records = len(R)` and
`individual_properties = valid_records - projects - project_units`
(computed over the integers, as Python does). -/
theorem c7_statistics_identities (data : List PRecord) :
    (generate_statistics data).total_records = data.length ∧
    (generate_statistics data).individual_properties =
      ((generate_statistics data).valid_records : Int) -
        (generate_statistics data).projects -
        (generate_statistics data).project_units :=
  ⟨rfl, rfl⟩

/-! ### C8 -/

theorem isEmpty_false_of_ne_nil {l : List PRecord} (h : l ≠ []) :
    l.isEmpty = false := by
  cases l with
  | nil => exact absurd rfl h
  | cons a t => rfl

theorem record_then_save_data (T : Nat) (st : Store) (r : PRecord) :
    (record_then_save T st r).data = st.data ++ [r] := by
  have hde : (st.data ++ [r]).isEmpty = false := isEmpty_false_of_ne_nil (by simp)
  unfold record_then_save save_data_incremental handler_save_data
  by_cases hc : (false || decide (st.backup_counter + 1 ≥ T)) = true
  · simp [hde, hc]
  · simp only [Bool.not_eq_true] at hc
    simp [hde, hc]

theorem record_then_save_flush (T : Nat) (st : Store) (r : PRecord)
    (hflush : st.backup_counter + 1 ≥ T) :
    (record_then_save T st r).backup_counter = 0 ∧
    (record_then_save T st r).writes = st.writes ++ [st.data ++ [r]] := by
  have hde : (st.data ++ [r]).isEmpty = false := isEmpty_false_of_ne_nil (by simp)
  have hcond : (false || decide (st.backup_counter + 1 ≥ T)) = true := by
    simp [hflush]
  unfold record_then_save save_data_incremental handler_save_data
  simp [hde, hcond]

theorem record_then_save_no_flush (T : Nat) (st : Store) (r : PRecord)
    (hflush : ¬ st.backup_counter + 1 ≥ T) :
    (record_then_save T st r).backup_counter = st.backup_counter + 1 ∧
    (record_then_save T st r).writes = st.writes := by
  have hde : (st.data ++ [r]).isEmpty = false := isEmpty_false_of_ne_nil (by simp)
  have hcond : (false || decide (st.backup_counter + 1 ≥ T)) = false := by
    simp [hflush]
  unfold record_then_save save_data_incremental
  simp [hde, hcond]

theorem record_run_spec (T : Nat) (hT : 0 < T) :
    ∀ (recs : List PRecord) (st : Store), st.data ≠ [] →
      st.backup_counter < T →
      (record_run T st recs).writes.length =
          st.writes.length + (st.backup_counter + recs.length) / T ∧
      (record_run T st recs).backup_counter =
          (st.backup_counter + recs.length) % T ∧
      (record_run T st recs).data = st.data ++ recs := by
  intro recs
  induction recs with
  | nil =>
    intro st hd hc
    refine ⟨?_, ?_, ?_⟩
    · simp [record_run, Nat.div_eq_of_lt hc]
    · simp [record_run, Nat.mod_eq_of_lt hc]
    · simp [record_run]
  | cons r t ih =>
    intro st hd hc
    have hstep : record_run T st (r :: t) =
        record_run T (record_then_save T st r) t := rfl
    have hdata' : (record_then_save T st r).data = st.data ++ [r] :=
      record_then_save_data T st r
    have hd' : (record_then_save T st r).data ≠ [] := by
      rw [hdata']
      simp
    by_cases hflush : st.backup_counter + 1 ≥ T
    · have hceq : st.backup_counter + 1 = T := le_antisymm (by omega) hflush
      obtain ⟨hbc', hw'⟩ := record_then_save_flush T st r hflush
      obtain ⟨ihw, ihc, ihd⟩ := ih (record_then_save T st r) hd' (by omega)
      rw [hbc', hw'] at ihw
      rw [hbc'] at ihc
      rw [hdata'] at ihd
      have hlen : st.backup_counter + (t.length + 1) = t.length + T := by omega
      refine ⟨?_, ?_, ?_⟩
      · rw [hstep, ihw]
        simp only [List.length_append, List.length_cons, List.length_nil,
          Nat.zero_add]
        rw [hlen, Nat.add_div_right _ hT]
        generalize t.length / T = q
        omega
      · rw [hstep, ihc]
        simp only [List.length_cons, Nat.zero_add]
        rw [hlen, Nat.add_mod_right]
      · rw [hstep, ihd]
        simp
    · obtain ⟨hbc', hw'⟩ := record_then_save_no_flush T st r hflush
      obtain ⟨ihw, ihc, ihd⟩ := ih (record_then_save T st r) hd' (by omega)
      rw [hbc', hw'] at ihw
      rw [hbc'] at ihc
      rw [hdata'] at ihd
      have hlen : st.backup_counter + 1 + t.length =
          st.backup_counter + (t.length + 1) := by omega
      refine ⟨?_, ?_, ?_⟩
      · rw [hstep, ihw]
        simp only [List.length_cons]
        rw [hlen]
      · rw [hstep, ihc]
        simp only [List.length_cons]
        rw [hlen]
      · rw [hstep, ihd]
        simp

/-- C8: starting from a zero since-last-flush counter and a non-empty
accumulated record list, `N` incremental-save calls each recording one
newly appended record flush exactly `⌊N/T⌋` times for threshold `T ≥ 1`;
one more forced save at the end adds exactly one flush, writes the
entire current accumulated record list, and resets the counter to zero;
and in general every flush writes the full current list and zeroes the
counter. -/
theorem c8_flush_cadence (T : Nat) (st : Store) (recs : List PRecord)
    (hT : 1 ≤ T) (hdata : st.data ≠ []) (hbc : st.backup_counter = 0) :
    (record_run T st recs).writes.length =
        st.writes.length + recs.length / T ∧
    (record_run T st recs).backup_counter = recs.length % T ∧
    (save_data_incremental T (record_run T st recs) 0 true).writes.length =
        st.writes.length + recs.length / T + 1 ∧
    (save_data_incremental T (record_run T st recs) 0 true).writes.getLast? =
        some ((record_run T st recs).data) ∧
    (save_data_incremental T (record_run T st recs) 0 true).backup_counter =
        0 ∧
    (∀ (st' : Store) (c : Nat) (f : Bool), st'.data ≠ [] →
      (f || decide (st'.backup_counter + c ≥ T)) = true →
      (save_data_incremental T st' c f).writes = st'.writes ++ [st'.data] ∧
      (save_data_incremental T st' c f).backup_counter = 0) := by
  obtain ⟨hw, hcnt, hdat⟩ :=
    record_run_spec T hT recs st hdata (by omega)
  rw [hbc, Nat.zero_add] at hw hcnt
  have hRd : (record_run T st recs).data ≠ [] := by
    rw [hdat]
    simp [hdata]
  have hforce : ∀ (st' : Store) (c : Nat) (f : Bool), st'.data ≠ [] →
      (f || decide (st'.backup_counter + c ≥ T)) = true →
      (save_data_incremental T st' c f).writes = st'.writes ++ [st'.data] ∧
      (save_data_incremental T st' c f).backup_counter = 0 := by
    intro st' c f hne hcond
    unfold save_data_incremental handler_save_data
    rw [isEmpty_false_of_ne_nil hne]
    dsimp only
    rw [if_pos hcond]
    rw [isEmpty_false_of_ne_nil hne]
    exact ⟨rfl, rfl⟩
  obtain ⟨hfw, hfc⟩ := hforce (record_run T st recs) 0 true hRd (by simp)
  refine ⟨hw, hcnt, ?_, ?_, hfc, hforce⟩
  · rw [hfw]
    simp [hw]
  · rw [hfw]
    exact List.getLast?_concat _

theorem c8_witness :
    (record_run BACKUP_INTERVAL store8 (List.replicate 25 dummyRec)).writes.length
        = 2 ∧
    (record_run BACKUP_INTERVAL store8 (List.replicate 25 dummyRec)).backup_counter
        = 1 ∧
    (save_data_incremental BACKUP_INTERVAL
        (record_run BACKUP_INTERVAL store8 (List.replicate 25 dummyRec)) 0
        true).writes.length = 3 ∧
    (save_data_incremental BACKUP_INTERVAL
        (record_run BACKUP_INTERVAL store8 (List.replicate 25 dummyRec)) 0
        true).backup_counter = 0 := by
  have h := c8_flush_cadence BACKUP_INTERVAL store8 (List.replicate 25 dummyRec)
    (by decide) (by decide) rfl
  refine ⟨?_, ?_, ?_, h.2.2.2.2.1⟩
  · rw [h.1]
    decide
  · rw [h.2.1]
    decide
  · rw [h.2.2.1]
    decide

/-! ### C9 -/

theorem process_link_frame (env : ScrapeEnv) (cfg : RunCfg) (st : RunSt)
    (pp : Bool) (link : String) :
    (process_link env cfg st pp link).1.captcha_encountered =
        st.captcha_encountered ∧
    (process_link env cfg st pp link).1.trace = st.trace := by
  unfold process_link
  dsimp only
  repeat' split
  all_goals exact ⟨rfl, rfl⟩

theorem process_links_frame (env : ScrapeEnv) (cfg : RunCfg) :
    ∀ (links : List String) (p : RunSt × Bool),
      (links.foldl (fun p link => process_link env cfg p.1 p.2 link)
        p).1.captcha_encountered = p.1.captcha_encountered ∧
      (links.foldl (fun p link => process_link env cfg p.1 p.2 link)
        p).1.trace = p.1.trace := by
  intro links
  induction links with
  | nil => intro p; exact ⟨rfl, rfl⟩
  | cons l t ih =>
    intro p
    rw [List.foldl_cons]
    obtain ⟨ih1, ih2⟩ := ih (process_link env cfg p.1 p.2 l)
    obtain ⟨f1, f2⟩ := process_link_frame env cfg p.1 p.2 l
    exact ⟨ih1.trans f1, ih2.trans f2⟩

theorem page_step_frame (env : ScrapeEnv) (cfg : RunCfg) (st : RunSt)
    (soup : Soup) :
    (page_step env cfg st soup).captcha_encountered = st.captcha_encountered ∧
    (page_step env cfg st soup).trace = st.trace := by
  unfold page_step
  obtain ⟨f1, f2⟩ := process_links_frame env cfg (extract_links_from_soup soup)
    (st, false)
  dsimp only
  split
  · exact ⟨f1, f2⟩
  · exact ⟨f1, f2⟩

theorem pages_loop_flag_true (env : ScrapeEnv) (cfg : RunCfg) (sec : String) :
    ∀ (page fuel : Nat) (st : RunSt), st.captcha_encountered = true →
      pages_loop env cfg sec page fuel st = st := by
  intro page fuel st h
  cases fuel with
  | zero => rfl
  | succ n => simp [pages_loop, h]

theorem cleanTrace_nil : cleanTrace [] :=
  fun e he => absurd he (List.not_mem_nil e)

theorem cleanTrace_concat_false {tr : List (String × Bool)} {u : String}
    (h : cleanTrace tr) : cleanTrace (tr ++ [(u, false)]) := by
  intro e he
  rcases List.mem_append.mp he with h1 | h2
  · exact h e h1
  · rw [List.mem_singleton.mp h2]

theorem pages_loop_invariant (env : ScrapeEnv) (cfg : RunCfg) (sec : String) :
    ∀ (fuel page : Nat) (st : RunSt),
      st.captcha_encountered = false → cleanTrace st.trace →
      ((pages_loop env cfg sec page fuel st).captcha_encountered = false ∧
        cleanTrace (pages_loop env cfg sec page fuel st).trace) ∨
      ((pages_loop env cfg sec page fuel st).captcha_encountered = true ∧
        blockedLast (pages_loop env cfg sec page fuel st).trace) := by
  intro fuel
  induction fuel with
  | zero => intro page st hf hc; exact Or.inl ⟨hf, hc⟩
  | succ n ih =>
    intro page st hf hc
    unfold pages_loop
    rw [if_neg (by simp [hf])]
    dsimp only
    cases hfe : scrape_with_captcha_protection env.fetch (page_url sec page) with
    | none =>
      dsimp only
      rw [pages_loop_flag_true env cfg sec (page + 1) n _ rfl]
      exact Or.inr ⟨rfl, st.trace, page_url sec page, rfl, hc⟩
    | some soup =>
      dsimp only
      by_cases hpl : check_pagination_limit soup page = true
      · rw [if_pos hpl]
        exact Or.inl ⟨hf, cleanTrace_concat_false hc⟩
      · rw [if_neg hpl]
        by_cases hle : (extract_links_from_soup soup).isEmpty = true
        · rw [if_pos hle]
          exact Or.inl ⟨hf, cleanTrace_concat_false hc⟩
        · rw [if_neg hle]
          obtain ⟨s1, s2⟩ := page_step_frame env cfg
            { st with trace := st.trace ++ [(page_url sec page, false)] } soup
          refine ih (page + 1) _ ?_ ?_
          · rw [s1]
            exact hf
          · rw [s2]
            exact cleanTrace_concat_false hc

theorem sections_loop_flag_true (env : ScrapeEnv) (cfg : RunCfg) :
    ∀ (secs : List String) (st : RunSt), st.captcha_encountered = true →
      sections_loop env cfg secs st = st := by
  intro secs st h
  cases secs with
  | nil => rfl
  | cons s r => simp [sections_loop, h]

theorem sections_loop_invariant (env : ScrapeEnv) (cfg : RunCfg) :
    ∀ (secs : List String) (st : RunSt),
      st.captcha_encountered = false → cleanTrace st.trace →
      ((sections_loop env cfg secs st).captcha_encountered = false ∧
        cleanTrace (sections_loop env cfg secs st).trace) ∨
      ((sections_loop env cfg secs st).captcha_encountered = true ∧
        blockedLast (sections_loop env cfg secs st).trace) := by
  intro secs
  induction secs with
  | nil => intro st hf hc; exact Or.inl ⟨hf, hc⟩
  | cons s r ih =>
    intro st hf hc
    have hstep : sections_loop env cfg (s :: r) st =
        sections_loop env cfg r (pages_loop env cfg s 1 cfg.max_pages st) := by
      simp [sections_loop, hf]
    rw [hstep]
    rcases pages_loop_invariant env cfg s cfg.max_pages 1 st hf hc with
      ⟨h1, h2⟩ | ⟨h1, h2⟩
    · exact ih _ h1 h2
    · rw [sections_loop_flag_true env cfg r _ h1]
      exact Or.inr ⟨h1, h2⟩

theorem blocked_only_last {tr : List (String × Bool)}
    (hd : cleanTrace tr ∨ blockedLast tr) :
    ∀ (i : Nat) (h : i < tr.length), (tr.get ⟨i, h⟩).2 = true →
      i + 1 = tr.length := by
  rcases hd with hcl | ⟨pre, u, rfl, hpre⟩
  · intro i h hb
    have hfalse := hcl (tr.get ⟨i, h⟩) (tr.get_mem i h)
    rw [hb] at hfalse
    exact absurd hfalse (by decide)
  · intro i h hb
    have hlen : (pre ++ [(u, true)]).length = pre.length + 1 := by simp
    by_cases hi : i < pre.length
    · have hg : (pre ++ [(u, true)]).get ⟨i, h⟩ = pre.get ⟨i, hi⟩ := by
        simp [List.get_eq_getElem, List.getElem_append_left hi]
      rw [hg] at hb
      have hfalse := hpre (pre.get ⟨i, hi⟩) (pre.get_mem i hi)
      rw [hb] at hfalse
      exact absurd hfalse (by decide)
    · have hip : i = pre.length := by
        rw [hlen] at h
        omega
      rw [hip, hlen]

theorem run_scraper_trace_eq (env : ScrapeEnv) (cfg : RunCfg) :
    (run_scraper env cfg).trace =
      (sections_loop env cfg
        (if cfg.mode = "todos" then ["venta", "arriendo"] else [cfg.mode])
        initialRunSt).trace := rfl

/-- C9: single-recovery CAPTCHA policy.  In any run, every blocked
listing-page fetch is the last listing fetch the run performs: once the
captcha flag is set, all remaining pages of the current section and all
subsequent sections are skipped, and the flag is never cleared. -/
theorem c9_captcha_short_circuit (env : ScrapeEnv) (cfg : RunCfg) :
    ∀ (i : Nat) (h : i < (run_scraper env cfg).trace.length),
      ((run_scraper env cfg).trace.get ⟨i, h⟩).2 = true →
      i + 1 = (run_scraper env cfg).trace.length := by
  have hdisj : cleanTrace (run_scraper env cfg).trace ∨
      blockedLast (run_scraper env cfg).trace := by
    rw [run_scraper_trace_eq]
    rcases sections_loop_invariant env cfg
        (if cfg.mode = "todos" then ["venta", "arriendo"] else [cfg.mode])
        initialRunSt rfl cleanTrace_nil with ⟨_, h2⟩ | ⟨_, h2⟩
    · exact Or.inl h2
    · exact Or.inr h2
  exact blocked_only_last hdisj

theorem c9_witness :
    (run_scraper envLoadFail cfgFix).trace =
      [("https://www.properati.com.co/s/venta", true)] ∧
    0 + 1 = (run_scraper envLoadFail cfgFix).trace.length :=
  ⟨rfl, c9_captcha_short_circuit envLoadFail cfgFix 0 (by decide) (by decide)⟩

/-! ### C10 -/

theorem nilpres_refl (a : RunSt) : NilPreserve a a := fun h => ⟨h, rfl⟩

theorem nilpres_trans {a b c : RunSt} (h1 : NilPreserve a b)
    (h2 : NilPreserve b c) : NilPreserve a c := by
  intro hc
  obtain ⟨hb, hw2⟩ := h2 hc
  obtain ⟨ha, hw1⟩ := h1 hb
  exact ⟨ha, hw2.trans hw1⟩

theorem sdi_data (T : Nat) (st : Store) (c : Nat) (f : Bool) :
    (save_data_incremental T st c f).data = st.data := by
  unfold save_data_incremental
  by_cases h : st.data.isEmpty = true
  · simp [h]
  · by_cases h2 : (f || decide (st.backup_counter + c ≥ T)) = true
    · simp [h, h2]
    · simp [h, h2]

theorem sdi_nil (T : Nat) (st : Store) (c : Nat) (f : Bool)
    (h : st.data = []) : save_data_incremental T st c f = st := by
  unfold save_data_incremental
  rw [h]
  rfl

theorem ne_nil_of_isEmpty_ne_true {l : List PRecord}
    (h : ¬ l.isEmpty = true) : l ≠ [] := by
  cases l with
  | nil => exact absurd rfl h
  | cons a t => exact fun heq => List.noConfusion heq

theorem nilpres_store_append (st : RunSt) (L : List PRecord) (hL : L ≠ [])
    (k : Nat) (f : Bool) :
    NilPreserve st
      { st with
        store :=
          save_data_incremental BACKUP_INTERVAL
            { st.store with data := st.store.data ++ L } k f } := by
  intro hnil
  exfalso
  have hnil' : (save_data_incremental BACKUP_INTERVAL
      { st.store with data := st.store.data ++ L } k f).data = [] := hnil
  rw [sdi_data] at hnil'
  exact hL (List.append_eq_nil.mp hnil').2

theorem nilpres_store_save (st : RunSt) (k : Nat) (f : Bool) :
    NilPreserve st
      { st with store := save_data_incremental BACKUP_INTERVAL st.store k f } := by
  intro hnil
  have hd : (save_data_incremental BACKUP_INTERVAL st.store k f).data =
      st.store.data := sdi_data _ _ _ _
  have hdat : st.store.data = [] := by
    rw [← hd]
    exact hnil
  have hid := sdi_nil BACKUP_INTERVAL st.store k f hdat
  refine ⟨hdat, ?_⟩
  show (save_data_incremental BACKUP_INTERVAL st.store k f).writes =
    st.store.writes
  rw [hid]

theorem process_link_nilpres (env : ScrapeEnv) (cfg : RunCfg) (st : RunSt)
    (pp : Bool) (link : String) :
    NilPreserve st (process_link env cfg st pp link).1 := by
  unfold process_link
  dsimp only
  by_cases hflag : st.captcha_encountered = true
  · rw [if_pos hflag]
    exact nilpres_refl st
  · rw [if_neg hflag]
    by_cases hproj : (inStr "/proyecto/" link && cfg.scrape_project_units) = true
    · rw [if_pos hproj]
      by_cases hpd : (scrape_project_with_units env link).isEmpty = true
      · rw [if_pos hpd]
        exact nilpres_refl st
      · rw [if_neg hpd]
        exact nilpres_store_append st _ (ne_nil_of_isEmpty_ne_true hpd) _ _
    · rw [if_neg hproj]
      by_cases hok : (!(scrape_property env link).isEmpty &&
          !truthy (pyGet (scrape_property env link) "Error")) = true
      · rw [if_pos hok]
        refine nilpres_store_append st _ ?_ 1 false
        simp
      · rw [if_neg hok]
        refine nilpres_store_append st _ ?_ 1 false
        simp

theorem process_links_nilpres (env : ScrapeEnv) (cfg : RunCfg) :
    ∀ (links : List String) (p : RunSt × Bool),
      NilPreserve p.1
        (links.foldl (fun p link => process_link env cfg p.1 p.2 link) p).1 := by
  intro links
  induction links with
  | nil => intro p; exact nilpres_refl p.1
  | cons l t ih =>
    intro p
    rw [List.foldl_cons]
    exact nilpres_trans (process_link_nilpres env cfg p.1 p.2 l)
      (ih (process_link env cfg p.1 p.2 l))

theorem page_step_nilpres (env : ScrapeEnv) (cfg : RunCfg) (st : RunSt)
    (soup : Soup) : NilPreserve st (page_step env cfg st soup) := by
  unfold page_step
  dsimp only
  refine nilpres_trans
    (process_links_nilpres env cfg (extract_links_from_soup soup) (st, false)) ?_
  by_cases hp : (process_links env cfg st (extract_links_from_soup soup)).2 = true
  · rw [if_pos hp]
    exact nilpres_store_save _ 0 true
  · rw [if_neg hp]
    exact nilpres_refl _

theorem nilpres_trace_only (st : RunSt) (flag : Bool)
    (tr : List (String × Bool)) :
    NilPreserve st { st with captcha_encountered := flag, trace := tr } :=
  fun h => ⟨h, rfl⟩

theorem pages_loop_nilpres (env : ScrapeEnv) (cfg : RunCfg) (sec : String) :
    ∀ (fuel page : Nat) (st : RunSt),
      NilPreserve st (pages_loop env cfg sec page fuel st) := by
  intro fuel
  induction fuel with
  | zero => intro page st; exact nilpres_refl st
  | succ n ih =>
    intro page st
    unfold pages_loop
    by_cases hflag : st.captcha_encountered = true
    · rw [if_pos hflag]
      exact nilpres_refl st
    · rw [if_neg hflag]
      dsimp only
      cases hfe : scrape_with_captcha_protection env.fetch (page_url sec page) with
      | none =>
        dsimp only
        exact nilpres_trans
          (nilpres_trace_only st true (st.trace ++ [(page_url sec page, true)]))
          (ih (page + 1) _)
      | some soup =>
        dsimp only
        by_cases hpl : check_pagination_limit soup page = true
        · rw [if_pos hpl]
          exact nilpres_trace_only st st.captcha_encountered _
        · rw [if_neg hpl]
          by_cases hle : (extract_links_from_soup soup).isEmpty = true
          · rw [if_pos hle]
            exact nilpres_trace_only st st.captcha_encountered _
          · rw [if_neg hle]
            exact nilpres_trans
              (nilpres_trace_only st st.captcha_encountered _)
              (nilpres_trans (page_step_nilpres env cfg _ soup) (ih (page + 1) _))

theorem sections_loop_nilpres (env : ScrapeEnv) (cfg : RunCfg) :
    ∀ (secs : List String) (st : RunSt),
      NilPreserve st (sections_loop env cfg secs st) := by
  intro secs
  induction secs with
  | nil => intro st; exact nilpres_refl st
  | cons s r ih =>
    intro st
    unfold sections_loop
    by_cases hflag : st.captcha_encountered = true
    · rw [if_pos hflag]
      exact nilpres_refl st
    · rw [if_neg hflag]
      exact nilpres_trans (pages_loop_nilpres env cfg s cfg.max_pages 1 st)
        (ih (pages_loop env cfg s 1 cfg.max_pages st))

/-- C10: a flush invoked on an empty accumulated record list performs no
write — `DataHandler.save_data` leaves the write trace unchanged (even
with `force`), `_save_data_incremental` leaves the whole store state
(counters included) unchanged — and a run whose final record list is
empty never wrote an output file. -/
theorem c10_empty_no_write :
    (∀ (writes : List (List PRecord)) (data : List PRecord), data = [] →
      handler_save_data writes data = writes) ∧
    (∀ (T : Nat) (st : Store) (c : Nat) (f : Bool), st.data = [] →
      save_data_incremental T st c f = st) ∧
    (∀ (env : ScrapeEnv) (cfg : RunCfg),
      (run_scraper env cfg).store.data = [] →
      (run_scraper env cfg).store.writes = []) := by
  refine ⟨?_, ?_, ?_⟩
  · intro writes data h
    rw [h]
    rfl
  · intro T st c f h
    exact sdi_nil T st c f h
  · intro env cfg h
    have hS := sections_loop_nilpres env cfg
      (if cfg.mode = "todos" then ["venta", "arriendo"] else [cfg.mode])
      initialRunSt
    have hdata : (sections_loop env cfg
        (if cfg.mode = "todos" then ["venta", "arriendo"] else [cfg.mode])
        initialRunSt).store.data = [] := h
    obtain ⟨_, hw⟩ := hS hdata
    show handler_save_data
      (sections_loop env cfg
        (if cfg.mode = "todos" then ["venta", "arriendo"] else [cfg.mode])
        initialRunSt).store.writes
      (sections_loop env cfg
        (if cfg.mode = "todos" then ["venta", "arriendo"] else [cfg.mode])
        initialRunSt).store.data = []
    rw [hdata, hw]
    rfl

theorem c10_witness :
    handler_save_data [[dummyRec]] [] = [[dummyRec]] ∧
    save_data_incremental BACKUP_INTERVAL
      { data := [], properties_processed := 3, backup_counter := 5,
        writes := [] } 2 true =
      { data := [], properties_processed := 3, backup_counter := 5,
        writes := [] } ∧
    (run_scraper envUnknown cfgFix).store.writes = [] :=
  ⟨c10_empty_no_write.1 [[dummyRec]] [] rfl,
   c10_empty_no_write.2.1 BACKUP_INTERVAL
     { data := [], properties_processed := 3, backup_counter := 5,
       writes := [] } 2 true rfl,
   c10_empty_no_write.2.2 envUnknown cfgFix (by decide)⟩

end Properati
